import Mathlib

/-!
Shallow embedding of `src/main.go` (HenriqueOtsuka/multithread): a CEP
(Brazilian postal code) resolver that races two upstream lookup services
(BrasilAPI and ViaCep) and answers with the first arriving result.

The embedding models:
  * the two provider address shapes (`AddressBrasil`, `AddressViaCep`);
  * JSON bodies abstractly (`Json`, `JVal`) together with Go's
    `json.Unmarshal` behaviour for the two structs (unknown fields ignored,
    absent string fields left as the zero value `""`);
  * the two upstream clients `fetchFromBrasilAPI` / `fetchFromViaCep` as
    functions of the world's answers (request-creation error, `Do` result);
  * the per-request race of `handleCEP`: goroutine bodies as the list of
    messages they send, the rendezvous channel as a capacity-2 FIFO, the
    coordinator consuming the head of the arrival-ordered message list, and
    the response mapping (lines 127-158) including the Go `switch` semantics
    where a matching `case` with a failed type assertion writes nothing;
  * the handler's externally visible behaviour as an event trace
    (context creation, goroutine starts, receive, cancel, writes).
-/

namespace Multithread

/-- A JSON value, only as finely as the decoding of the two address structs
needs: string fields decode, non-string values in a string field make
`json.Unmarshal` fail, anything else is opaque. -/
inductive JVal where
  | str (s : String)
  | boolean (b : Bool)
  | number (n : Int)
deriving DecidableEq, Repr

/-- A response body as seen by `json.Unmarshal`: either not valid JSON at
all, or a JSON object given by its field list. -/
inductive Json where
  | malformed (raw : String)
  | obj (fields : List (String × JVal))
deriving DecidableEq, Repr

/-- Result of `io.ReadAll(resp.Body)`: a read error or the body content. -/
inductive BodyRead where
  | readError (msg : String)
  | content (j : Json)
deriving DecidableEq, Repr

/-- An upstream HTTP response: `resp.StatusCode`, the `resp.Status` text
(used in BrasilAPI's error message), and the body. -/
structure HTTPResp where
  statusCode : Nat
  status : String
  body : BodyRead
deriving DecidableEq, Repr

/-- Error returned by `http.DefaultClient.Do`. The `deadline` variant is a
transport error wrapping `context.DeadlineExceeded` (the race context's
1-second deadline expired during the call); `Do` wraps it in a `url.Error`,
which keeps `errors.Is(err, context.DeadlineExceeded)` true. -/
inductive DoErr where
  | deadline
  | transport (msg : String)
deriving DecidableEq, Repr

def DoErr.message : DoErr → String
  | .deadline => "context deadline exceeded"
  | .transport m => m

/-- The errors the two fetch functions can return. `wrapped` covers the
`fmt.Errorf("...: %v", err)` messages (request creation, body read, decode):
`%v` keeps only the text, so such an error never matches
`errors.Is(·, context.DeadlineExceeded)`. `statusFail` is BrasilAPI's
line 52 error; `doFail` is the `Do` error returned as-is. -/
inductive FetchErr where
  | createReq (msg : String)
  | doFail (e : DoErr)
  | statusFail (msg : String)
  | wrapped (msg : String)
deriving DecidableEq, Repr

def FetchErr.message : FetchErr → String
  | .createReq m => m
  | .doFail e => e.message
  | .statusFail m => m
  | .wrapped m => m

/-- `errors.Is(err, context.DeadlineExceeded)` on the values the two fetch
functions return: true exactly for a `Do` error wrapping the deadline. -/
def FetchErr.isDeadlineExceeded : FetchErr → Bool
  | .doFail .deadline => true
  | _ => false

/-- BrasilAPI's address shape (main.go lines 14-21). `service` has tag
`json:"-"` and is never decoded. -/
structure AddressBrasil where
  cep : String
  state : String
  city : String
  neighborhood : String
  street : String
  service : String
deriving DecidableEq, Repr

/-- ViaCep's address shape (main.go lines 23-30). -/
structure AddressViaCep where
  cep : String
  uf : String
  localidade : String
  bairro : String
  logradouro : String
  service : String
deriving DecidableEq, Repr

/-- The zero value of `AddressViaCep`, what `var address AddressViaCep`
starts as. -/
def zeroViaCep : AddressViaCep := ⟨"", "", "", "", "", ""⟩

def lookupField (fields : List (String × JVal)) (k : String) : Option JVal :=
  (fields.find? (fun kv => kv.1 = k)).map (fun kv => kv.2)

/-- Go `json.Unmarshal` on one `string` struct field: absent field leaves
the zero value `""`, a string decodes, a non-string value is an error. -/
def decodeStringField (fields : List (String × JVal)) (k : String) :
    Except String String :=
  match lookupField fields k with
  | none => Except.ok ""
  | some (JVal.str s) => Except.ok s
  | some _ => Except.error ("json: cannot unmarshal value into field " ++ k)

/-- `json.Unmarshal(body, &address)` for `AddressBrasil`. -/
def unmarshalBrasil : Json → Except String AddressBrasil
  | .malformed raw => Except.error ("invalid character in " ++ raw)
  | .obj fields => do
    let cep ← decodeStringField fields "cep"
    let state ← decodeStringField fields "state"
    let city ← decodeStringField fields "city"
    let neighborhood ← decodeStringField fields "neighborhood"
    let street ← decodeStringField fields "street"
    return ⟨cep, state, city, neighborhood, street, ""⟩

/-- `json.Unmarshal(body, &address)` for `AddressViaCep`. -/
def unmarshalViaCep : Json → Except String AddressViaCep
  | .malformed raw => Except.error ("invalid character in " ++ raw)
  | .obj fields => do
    let cep ← decodeStringField fields "cep"
    let uf ← decodeStringField fields "uf"
    let localidade ← decodeStringField fields "localidade"
    let bairro ← decodeStringField fields "bairro"
    let logradouro ← decodeStringField fields "logradouro"
    return ⟨cep, uf, localidade, bairro, logradouro, ""⟩

/-- `fetchFromBrasilAPI` (main.go lines 38-68), as a function of the world's
answers: `newReqErr` is `http.NewRequestWithContext`'s error (if any),
`doResult` is what `http.DefaultClient.Do` returned. Note the status check
at line 51: any non-200 status fails with `requisição falhou: <status>`. -/
def fetchFromBrasilAPI (newReqErr : Option String)
    (doResult : Except DoErr HTTPResp) : Except FetchErr AddressBrasil :=
  match newReqErr with
  | some e => Except.error (FetchErr.createReq ("error creating request: " ++ e))
  | none =>
    match doResult with
    | Except.error e => Except.error (FetchErr.doFail e)
    | Except.ok resp =>
      if resp.statusCode ≠ 200 then
        Except.error (FetchErr.statusFail ("requisição falhou: " ++ resp.status))
      else
        match resp.body with
        | BodyRead.readError m =>
          Except.error (FetchErr.wrapped ("error reading response: " ++ m))
        | BodyRead.content j =>
          match unmarshalBrasil j with
          | Except.error m =>
            Except.error (FetchErr.wrapped ("error reading response: " ++ m))
          | Except.ok address => Except.ok address

/-- `fetchFromViaCep` (main.go lines 70-97). Unlike `fetchFromBrasilAPI`,
there is NO status-code check: after a successful `Do`, the body is read and
decoded whatever the status was. -/
def fetchFromViaCep (newReqErr : Option String)
    (doResult : Except DoErr HTTPResp) : Except FetchErr AddressViaCep :=
  match newReqErr with
  | some e => Except.error (FetchErr.createReq ("error creating request: " ++ e))
  | none =>
    match doResult with
    | Except.error e => Except.error (FetchErr.doFail e)
    | Except.ok resp =>
      match resp.body with
      | BodyRead.readError m =>
        Except.error (FetchErr.wrapped ("error reading response: " ++ m))
      | BodyRead.content j =>
        match unmarshalViaCep j with
        | Except.error m =>
          Except.error (FetchErr.wrapped ("error reading response: " ++ m))
        | Except.ok address => Except.ok address

/-- The payload of a `resultadoAPI` message: Go's `interface\x7b\x7d` `Data`
field can hold either provider's address or `nil`. -/
inductive Payload where
  | brasil (a : AddressBrasil)
  | viacep (a : AddressViaCep)
  | nilData
deriving DecidableEq, Repr

/-- `resultadoAPI` (main.go lines 32-36): the rendezvous message and also
the success envelope encoded in the 200 response. -/
structure resultadoAPI where
  origem : String
  data : Payload
  err : Option FetchErr
deriving DecidableEq, Repr

/-- The message the BrasilAPI goroutine (lines 108-115) sends for a given
fetch result. -/
def goroutineBrasil (rB : Except FetchErr AddressBrasil) : resultadoAPI :=
  match rB with
  | Except.error errBrasil => ⟨"brasilapi", Payload.nilData, some errBrasil⟩
  | Except.ok brasil => ⟨"brasilapi", Payload.brasil brasil, none⟩

/-- The message the ViaCep goroutine (lines 116-123) sends for a given
fetch result. -/
def goroutineViaCep (rV : Except FetchErr AddressViaCep) : resultadoAPI :=
  match rV with
  | Except.error errVia => ⟨"viacep", Payload.nilData, some errVia⟩
  | Except.ok viacep => ⟨"viacep", Payload.viacep viacep, none⟩

/-- The list of channel sends the BrasilAPI goroutine body performs: each
branch of lines 110-114 sends exactly one message and returns. -/
def goroutineBrasilBody (rB : Except FetchErr AddressBrasil) :
    List resultadoAPI :=
  match rB with
  | Except.error errBrasil => [⟨"brasilapi", Payload.nilData, some errBrasil⟩]
  | Except.ok brasil => [⟨"brasilapi", Payload.brasil brasil, none⟩]

/-- The list of channel sends the ViaCep goroutine body performs
(lines 117-122). -/
def goroutineViaCepBody (rV : Except FetchErr AddressViaCep) :
    List resultadoAPI :=
  match rV with
  | Except.error errVia => [⟨"viacep", Payload.nilData, some errVia⟩]
  | Except.ok viacep => [⟨"viacep", Payload.viacep viacep, none⟩]

/-- `make(chan resultadoAPI, 2)` (line 107): the buffer capacity. -/
def chanCapacity : Nat := 2

/-- One send on the buffered rendezvous channel, modelled as a FIFO queue:
it succeeds immediately (without blocking) iff the buffer has room, and
blocks (`none`) otherwise. -/
def sendNonBlocking (queue : List resultadoAPI) (m : resultadoAPI) :
    Option (List resultadoAPI) :=
  if queue.length < chanCapacity then some (queue ++ [m]) else none

/-- Which goroutine's message reaches the channel first. -/
inductive Winner where
  | brasil
  | viacep
deriving DecidableEq, Repr

/-- The channel content in arrival order, given both fetch results and who
arrived first: each goroutine's sends, winner's first. -/
def raceChannel (w : Winner) (rB : Except FetchErr AddressBrasil)
    (rV : Except FetchErr AddressViaCep) : List resultadoAPI :=
  match w with
  | Winner.brasil => goroutineBrasilBody rB ++ goroutineViaCepBody rV
  | Winner.viacep => goroutineViaCepBody rV ++ goroutineBrasilBody rB

/-- The first message of the race, by winner. -/
def firstMessage (w : Winner) (rB : Except FetchErr AddressBrasil)
    (rV : Except FetchErr AddressViaCep) : resultadoAPI :=
  match w with
  | Winner.brasil => goroutineBrasil rB
  | Winner.viacep => goroutineViaCep rV

/-- Body of a written HTTP response: `http.Error`'s plain text, or the JSON
encoding of a success envelope `resultadoAPI\x7bOrigem, Data\x7d`. -/
inductive RespBody where
  | text (s : String)
  | jsonEnvelope (origem : String) (data : Payload)
deriving DecidableEq, Repr

/-- A response written by the handler: status code, whether the
`Content-Type: application/json` header of line 136 is in force (false on
`http.Error` paths, which set `text/plain`), and the body. -/
structure Response where
  status : Nat
  contentTypeJson : Bool
  body : RespBody
deriving DecidableEq, Repr

/-- Lines 127-158 of `handleCEP`: what gets written for the consumed
message. `none` means the handler returns without writing anything — this
happens when a `case` of the `switch` matches `result.Origem` but the type
assertion on `result.Data` fails: the `case` body writes nothing and Go's
`switch` does not fall through to `default`. -/
def mapResult (result : resultadoAPI) : Option Response :=
  match result.err with
  | some e =>
    if e.isDeadlineExceeded then
      some ⟨408, false, RespBody.text "Erro: tempo de espera excedido"⟩
    else
      some ⟨500, false, RespBody.text ("Erro: " ++ e.message)⟩
  | none =>
    if result.origem = "viacep" then
      match result.data with
      | Payload.viacep a =>
        some ⟨200, true, RespBody.jsonEnvelope "viacep" (Payload.viacep a)⟩
      | _ => none
    else if result.origem = "brasilapi" then
      match result.data with
      | Payload.brasil a =>
        some ⟨200, true, RespBody.jsonEnvelope "brasilapi" (Payload.brasil a)⟩
      | _ => none
    else
      some ⟨500, false, RespBody.text "Erro interno: tipo inesperado de resposta"⟩

/-- The coordinator's receive `result := <-resChan` followed by the
response mapping: it consumes exactly the head of the arrival-ordered
message list. -/
def consumeAndRespond (msgs : List resultadoAPI) : Option Response :=
  match msgs with
  | [] => none
  | first :: _ => mapResult first

/-- `strings.Split(s, "/")`: split on every slash, keeping empty
segments. -/
def splitOnSlash : List Char → List (List Char)
  | [] => [[]]
  | c :: rest =>
    match splitOnSlash rest with
    | [] => [[]]
    | seg :: segs =>
      if c = '/' then [] :: seg :: segs else (c :: seg) :: segs

/-- Externally visible events of one `handleCEP` invocation, in program
order. -/
inductive Event where
  | createRaceCtx
  | startGoroutine (origin : String)
  | receiveFirst (msg : resultadoAPI)
  | cancelCtx
  | write (r : Response)
deriving DecidableEq, Repr

/-- The usage-hint 400 response of line 102. -/
def badRequestResp : Response :=
  ⟨400, false, RespBody.text "Uso correto: /cep/\x7bcep\x7d"⟩

/-- `handleCEP` (main.go lines 99-159) as an event trace. `path` is the
request URL path as a character list; `arrivals` is the channel content in
arrival order (always `raceChannel …` in the real program, where both
goroutines send). Lines 100-104 validate the path before anything else;
then the context is created, both goroutines started, the first message
consumed, the context cancelled, and the response (if any) written. -/
def handleCEP (path : List Char) (arrivals : List resultadoAPI) :
    List Event :=
  let parts := splitOnSlash path
  if parts.length ≠ 3 ∨ parts.getD 2 [] = [] then
    [Event.write badRequestResp]
  else
    match arrivals with
    | [] =>
      [Event.createRaceCtx, Event.startGoroutine "brasilapi",
       Event.startGoroutine "viacep"]
    | first :: _ =>
      [Event.createRaceCtx, Event.startGoroutine "brasilapi",
       Event.startGoroutine "viacep", Event.receiveFirst first,
       Event.cancelCtx] ++ (mapResult first).toList.map Event.write

/-- C1: the coordinator consumes exactly the first message delivered to the
rendezvous channel and produces exactly one outcome from it, regardless of
provider and of success/failure: the handler's behaviour depends only on the
head of the arrival list; the consumed message is the winner's, whoever won;
and if the first arrival is a failure (here BrasilAPI's status error), the
response reports that failure (500) even though the other provider's success
is sitting right behind it in the channel. -/
theorem c1_first_arrival_wins :
    (∀ (path : List Char) (first : resultadoAPI)
        (rest rest' : List resultadoAPI),
      handleCEP path (first :: rest) = handleCEP path (first :: rest')) ∧
    (∀ (w : Winner) (rB : Except FetchErr AddressBrasil)
        (rV : Except FetchErr AddressViaCep),
      consumeAndRespond (raceChannel w rB rV) =
        mapResult (firstMessage w rB rV)) ∧
    (∀ (m : String) (a : AddressViaCep),
      consumeAndRespond (raceChannel Winner.brasil
          (Except.error (FetchErr.statusFail m)) (Except.ok a)) =
        some ⟨500, false, RespBody.text ("Erro: " ++ m)⟩) := by
  refine ⟨fun path first rest rest' => rfl, ?_, ?_⟩
  · intro w rB rV
    cases w <;> cases rB <;> cases rV <;> rfl
  · intro m a
    rfl

/-- C2, counterexample: `fetchFromViaCep` performs no status-code check, so
an HTTP 503 response whose body is the empty JSON object is returned as a
SUCCESS (the zero-valued address), refuting the claim that on a non-success
status either client returns an upstream error rather than a success. -/
theorem c2_counterexample :
    fetchFromViaCep none (Except.ok
      ⟨503, "503 Service Unavailable", BodyRead.content (Json.obj [])⟩) =
      Except.ok zeroViaCep := rfl

/-- C2, amended: only `fetchFromBrasilAPI` checks the status: any non-200
status makes it return the status error of line 52. `fetchFromViaCep`'s
result is entirely independent of the status code and status text: it
proceeds to read and decode the body whatever the status was. -/
theorem c2_amended_status_check :
    (∀ resp : HTTPResp, resp.statusCode ≠ 200 →
      fetchFromBrasilAPI none (Except.ok resp) =
        Except.error (FetchErr.statusFail
          ("requisição falhou: " ++ resp.status))) ∧
    (∀ (code code' : Nat) (st st' : String) (b : BodyRead),
      fetchFromViaCep none (Except.ok ⟨code, st, b⟩) =
        fetchFromViaCep none (Except.ok ⟨code', st', b⟩)) := by
  constructor
  · intro resp h
    simp [fetchFromBrasilAPI, h]
  · intro code code' st st' b
    cases b <;> rfl

/-- C2, witness: the amended theorem applied to a concrete 503 response. -/
theorem c2_amended_status_check_witness :
    fetchFromBrasilAPI none (Except.ok
      ⟨503, "503 Service Unavailable", BodyRead.content (Json.obj [])⟩) =
      Except.error (FetchErr.statusFail
        ("requisição falhou: " ++ "503 Service Unavailable")) :=
  c2_amended_status_check.1
    ⟨503, "503 Service Unavailable", BodyRead.content (Json.obj [])⟩
    (by decide)

/-- C3: when the first message is a failure, the handler answers 408 with
the plain timeout text exactly when `errors.Is(err, context.DeadlineExceeded)`
holds — which is exactly when the failure is a `Do` error wrapping the race
context's deadline — and 500 with a body containing the error text for every
other cause (request creation, transport, status, read, decode). -/
theorem c3_failure_status_mapping :
    ∀ (o : String) (d : Payload) (e : FetchErr),
      mapResult ⟨o, d, some e⟩ =
        some (if e.isDeadlineExceeded then
            ⟨408, false, RespBody.text "Erro: tempo de espera excedido"⟩
          else
            ⟨500, false, RespBody.text ("Erro: " ++ e.message)⟩) ∧
      (e.isDeadlineExceeded = true ↔ e = FetchErr.doFail DoErr.deadline) := by
  intro o d e
  constructor
  · cases hb : e.isDeadlineExceeded <;> simp [mapResult, hb]
  · cases e with
    | doFail de => cases de <;> simp [FetchErr.isDeadlineExceeded]
    | createReq m => simp [FetchErr.isDeadlineExceeded]
    | statusFail m => simp [FetchErr.isDeadlineExceeded]
    | wrapped m => simp [FetchErr.isDeadlineExceeded]

/-- C4, counterexample: an outcome that is not a recognized variant — origin
`"viacep"` with a `nil` payload and no error — makes the `switch` enter the
`viacep` case, fail the type assertion, and fall out without writing
anything: no 500 is written, refuting the claim that every unrecognized
outcome gets the generic 500. -/
theorem c4_counterexample :
    mapResult ⟨"viacep", Payload.nilData, none⟩ = none := rfl

/-- C4, amended: the generic 500 of the `default` case is written only for
outcomes whose origin is neither `"viacep"` nor `"brasilapi"`; a recognized
origin with a mismatched (or nil) payload produces NO written response (the
matching `case` fails its type assertion and Go's `switch` does not fall
through to `default`) — though it still never panics; and every message the
two goroutines can actually send does produce exactly one written
response. -/
theorem c4_amended_default_case :
    (∀ (o : String) (d : Payload), o ≠ "viacep" → o ≠ "brasilapi" →
      mapResult ⟨o, d, none⟩ = some ⟨500, false,
        RespBody.text "Erro interno: tipo inesperado de resposta"⟩) ∧
    (∀ a, mapResult ⟨"viacep", Payload.brasil a, none⟩ = none) ∧
    (∀ v, mapResult ⟨"brasilapi", Payload.viacep v, none⟩ = none) ∧
    mapResult ⟨"viacep", Payload.nilData, none⟩ = none ∧
    mapResult ⟨"brasilapi", Payload.nilData, none⟩ = none ∧
    (∀ rB, mapResult (goroutineBrasil rB) ≠ none) ∧
    (∀ rV, mapResult (goroutineViaCep rV) ≠ none) := by
  refine ⟨?_, fun a => rfl, fun v => rfl, rfl, rfl, ?_, ?_⟩
  · intro o d h1 h2
    simp [mapResult, h1, h2]
  · intro rB
    cases rB with
    | error e => simp [goroutineBrasil, mapResult]; split <;> simp
    | ok a => simp [goroutineBrasil, mapResult]
  · intro rV
    cases rV with
    | error e => simp [goroutineViaCep, mapResult]; split <;> simp
    | ok v => simp [goroutineViaCep, mapResult]

/-- C4, witness: the amended theorem at a concrete unrecognized origin. -/
theorem c4_amended_default_case_witness :
    mapResult ⟨"cloudflare", Payload.nilData, none⟩ = some ⟨500, false,
      RespBody.text "Erro interno: tipo inesperado de resposta"⟩ :=
  c4_amended_default_case.1 "cloudflare" Payload.nilData (by decide) (by decide)

/-- C8: a success first message yields 200 with the
`Content-Type: application/json` header and the envelope whose `origem` is
the winning provider's name and whose `data` is that provider's address
shape. -/
theorem c8_success_mapping :
    (∀ a : AddressBrasil,
      mapResult (goroutineBrasil (Except.ok a)) = some ⟨200, true,
        RespBody.jsonEnvelope "brasilapi" (Payload.brasil a)⟩) ∧
    (∀ v : AddressViaCep,
      mapResult (goroutineViaCep (Except.ok v)) = some ⟨200, true,
        RespBody.jsonEnvelope "viacep" (Payload.viacep v)⟩) := by
  exact ⟨fun a => rfl, fun v => rfl⟩

/-- C5: each goroutine body delivers exactly one message to the rendezvous
channel; the channel is created with capacity 2; and with that capacity both
sends complete immediately even if the coordinator never reads (queue empty
or already holding the winner's message), so the loser's late message is
buffered—never blocking its sender. -/
theorem c5_rendezvous_capacity :
    (∀ rB, (goroutineBrasilBody rB).length = 1) ∧
    (∀ rV, (goroutineViaCepBody rV).length = 1) ∧
    chanCapacity = 2 ∧
    (∀ m1 m2 : resultadoAPI,
      sendNonBlocking [] m1 = some [m1] ∧
      sendNonBlocking [m1] m2 = some [m1, m2]) := by
  refine ⟨?_, ?_, rfl, fun m1 m2 => ⟨rfl, rfl⟩⟩
  · intro rB; cases rB <;> rfl
  · intro rV; cases rV <;> rfl

/-- C6: on every raced request (valid path, at least one arrival), the trace
is exactly context creation, the two goroutine starts, the receive of the
first message, the cancel, and then only writes: the race context is
cancelled exactly once, immediately after the first message is consumed and
before any response is written, on every path out of the coordinator. -/
theorem c6_cancel_once_after_receive (path : List Char)
    (first : resultadoAPI) (rest : List resultadoAPI)
    (h3 : (splitOnSlash path).length = 3)
    (hne : (splitOnSlash path).getD 2 [] ≠ []) :
    ∃ ws, handleCEP path (first :: rest) =
        [Event.createRaceCtx, Event.startGoroutine "brasilapi",
         Event.startGoroutine "viacep", Event.receiveFirst first,
         Event.cancelCtx] ++ ws ∧
      (∀ e ∈ ws, ∃ resp, e = Event.write resp) ∧
      (handleCEP path (first :: rest)).count Event.cancelCtx = 1 := by
  have hmain : handleCEP path (first :: rest) =
      [Event.createRaceCtx, Event.startGoroutine "brasilapi",
       Event.startGoroutine "viacep", Event.receiveFirst first,
       Event.cancelCtx] ++ (mapResult first).toList.map Event.write := by
    have hlt : 2 < (splitOnSlash path).length := by rw [h3]; norm_num
    rw [List.getD_eq_getElem _ _ hlt] at hne
    simp [handleCEP, h3, hne]
  refine ⟨(mapResult first).toList.map Event.write, hmain, ?_, ?_⟩
  · intro e he
    cases hm : mapResult first with
    | none => rw [hm] at he; simp at he
    | some r => rw [hm] at he; simp at he; exact ⟨r, he⟩
  · rw [hmain]
    cases hm : mapResult first <;>
      simp [List.count_append, List.count_cons, List.count_nil]

/-- C6, witness: a concrete valid request with a concrete first arrival. -/
theorem c6_cancel_once_after_receive_witness :
    ∃ ws, handleCEP ("/cep/01001000".toList)
        [⟨"viacep", Payload.viacep zeroViaCep, none⟩] =
        [Event.createRaceCtx, Event.startGoroutine "brasilapi",
         Event.startGoroutine "viacep",
         Event.receiveFirst ⟨"viacep", Payload.viacep zeroViaCep, none⟩,
         Event.cancelCtx] ++ ws ∧
      (∀ e ∈ ws, ∃ resp, e = Event.write resp) ∧
      (handleCEP ("/cep/01001000".toList)
        [⟨"viacep", Payload.viacep zeroViaCep, none⟩]).count
          Event.cancelCtx = 1 :=
  c6_cancel_once_after_receive _ _ _ (by decide) (by decide)

/-- C7: a path that does not split into exactly three parts with a
non-empty third part (i.e. not exactly two segments after the leading slash
with a non-empty postal code) makes the handler write only the 400 usage
response: no race context is created, no goroutine is started, no message is
ever received, hence no outbound call is issued. -/
theorem c7_malformed_path (path : List Char) (arrivals : List resultadoAPI)
    (h : (splitOnSlash path).length ≠ 3 ∨
      (splitOnSlash path).getD 2 [] = []) :
    handleCEP path arrivals = [Event.write badRequestResp] ∧
    ∀ e ∈ handleCEP path arrivals, e ≠ Event.createRaceCtx ∧
      (∀ o, e ≠ Event.startGoroutine o) ∧
      (∀ m, e ≠ Event.receiveFirst m) := by
  have hmain : handleCEP path arrivals = [Event.write badRequestResp] := by
    simp only [handleCEP]
    rw [if_pos h]
  refine ⟨hmain, ?_⟩
  rw [hmain]
  intro e he
  simp at he
  subst he
  exact ⟨by simp, fun o => by simp, fun m => by simp⟩

/-- C7, witness: the three malformed paths named by the spec. -/
theorem c7_malformed_path_witness :
    handleCEP ("/cep/".toList) [] = [Event.write badRequestResp] ∧
    handleCEP ("/cep".toList) [] = [Event.write badRequestResp] ∧
    handleCEP ("/cep/123/extra".toList) [] =
      [Event.write badRequestResp] :=
  ⟨(c7_malformed_path _ _ (Or.inr (by decide))).1,
   (c7_malformed_path _ _ (Or.inl (by decide))).1,
   (c7_malformed_path _ _ (Or.inl (by decide))).1⟩

/-- C9: a body that does not decode into the provider's shape makes either
client return the decode error (wrapped in `error reading response:`),
never a success — for BrasilAPI after its status check passes, for ViaCep
at any status. -/
theorem c9_decode_failure (st : String) :
    (∀ (j : Json) (m : String), unmarshalBrasil j = Except.error m →
      fetchFromBrasilAPI none (Except.ok ⟨200, st, BodyRead.content j⟩) =
        Except.error (FetchErr.wrapped ("error reading response: " ++ m))) ∧
    (∀ (j : Json) (m : String) (code : Nat),
      unmarshalViaCep j = Except.error m →
      fetchFromViaCep none (Except.ok ⟨code, st, BodyRead.content j⟩) =
        Except.error (FetchErr.wrapped ("error reading response: " ++ m))) := by
  constructor
  · intro j m hj
    simp [fetchFromBrasilAPI, hj]
  · intro j m code hj
    simp [fetchFromViaCep, hj]

/-- C9, witness: both clients on a body that is not valid JSON. -/
theorem c9_decode_failure_witness :
    fetchFromBrasilAPI none (Except.ok
      ⟨200, "200 OK", BodyRead.content (Json.malformed "not json")⟩) =
      Except.error (FetchErr.wrapped ("error reading response: " ++
        ("invalid character in " ++ "not json"))) ∧
    fetchFromViaCep none (Except.ok
      ⟨404, "404 Not Found", BodyRead.content (Json.malformed "not json")⟩) =
      Except.error (FetchErr.wrapped ("error reading response: " ++
        ("invalid character in " ++ "not json"))) :=
  ⟨(c9_decode_failure "200 OK").1 (Json.malformed "not json") _ rfl,
   (c9_decode_failure "404 Not Found").2 (Json.malformed "not json") _ 404 rfl⟩

/-- C10: a ViaCep body that is a JSON object with none of the five expected
address fields (such as ViaCep's `erro: true` answer for an unknown CEP)
decodes to the zero-valued address, `fetchFromViaCep` returns it as a
success whatever the status code, and the handler answers 200 with a
`viacep` envelope whose address fields are all empty strings. -/
theorem c10_viacep_unknown_cep (fields : List (String × JVal)) (code : Nat)
    (st : String)
    (h : ∀ kv ∈ fields, kv.1 ∉
      (["cep", "uf", "localidade", "bairro", "logradouro"] : List String)) :
    fetchFromViaCep none
      (Except.ok ⟨code, st, BodyRead.content (Json.obj fields)⟩) =
      Except.ok zeroViaCep ∧
    mapResult (goroutineViaCep (fetchFromViaCep none
      (Except.ok ⟨code, st, BodyRead.content (Json.obj fields)⟩))) =
      some ⟨200, true,
        RespBody.jsonEnvelope "viacep" (Payload.viacep zeroViaCep)⟩ := by
  have hfind : ∀ k ∈ (["cep", "uf", "localidade", "bairro", "logradouro"] :
      List String), decodeStringField fields k = Except.ok "" := by
    intro k hk
    have hnone : fields.find? (fun kv => kv.1 = k) = none := by
      rw [List.find?_eq_none]
      intro kv hkv
      simp only [decide_eq_true_eq]
      intro hek
      exact h kv hkv (hek ▸ hk)
    simp [decodeStringField, lookupField, hnone]
  have hun : unmarshalViaCep (Json.obj fields) = Except.ok zeroViaCep := by
    have hcep := hfind "cep" (by simp)
    have huf := hfind "uf" (by simp)
    have hloc := hfind "localidade" (by simp)
    have hbai := hfind "bairro" (by simp)
    have hlog := hfind "logradouro" (by simp)
    simp only [unmarshalViaCep, hcep, huf, hloc, hbai, hlog]
    rfl
  have h1 : fetchFromViaCep none
      (Except.ok ⟨code, st, BodyRead.content (Json.obj fields)⟩) =
      Except.ok zeroViaCep := by
    simp [fetchFromViaCep, hun]
  exact ⟨h1, by rw [h1]; rfl⟩

/-- C10, witness: ViaCep's literal `erro: true` body for an unknown CEP. -/
theorem c10_viacep_unknown_cep_witness :
    fetchFromViaCep none (Except.ok ⟨200, "200 OK",
      BodyRead.content (Json.obj [("erro", JVal.boolean true)])⟩) =
      Except.ok zeroViaCep ∧
    mapResult (goroutineViaCep (fetchFromViaCep none (Except.ok ⟨200, "200 OK",
      BodyRead.content (Json.obj [("erro", JVal.boolean true)])⟩))) =
      some ⟨200, true,
        RespBody.jsonEnvelope "viacep" (Payload.viacep zeroViaCep)⟩ :=
  c10_viacep_unknown_cep [("erro", JVal.boolean true)] 200 "200 OK" (by decide)

end Multithread
